import Mathlib

/-!
Shallow embedding of the authorization engine of `nq-api` (`src/authz.rs`)
and proofs of the spec's claims about it.

Conventions of the embedding:
* Rust `Option<T>` becomes `Option T`; Rust `Result` branches become explicit
  outcome constructors.
* A Rust panic (`unwrap()` on `None`, `todo!()`) is modelled by the explicit
  outcome `crash` (for `check`) resp. `GetModelResult.crash` (for `get_model`):
  the function returns neither `Ok` nor a typed error there.
* Machine integers: `u32` is a `Nat` (callers guarantee `< 2^32` where it
  matters), `i32` is an `Int`; the Rust cast `as i32` is `u32_as_i32`.
* Database reads are modelled by an environment `Db` of pure functions:
  `find_grants` stands for the two diesel queries over `app_permissions`
  and `app_permission_conditions` (same filters, so one lookup returning
  the pair), with `none` standing for a diesel read error (the `Err` arm of
  `select_result`).  `RouterError::log_to_db` calls are collected in an
  output list of `AuditRecord`s instead of being written to the database.
-/

namespace NqApi

/-- Request Action enum (authz.rs lines 15-29). -/
inductive Action
  | Create
  | Edit
  | Delete
  | View
deriving DecidableEq, Repr

/-- The two fields of the external auth-z crate's `ParsedPath` that
`check` reads: optional controller (resource-type) name and optional
resource-instance id (a string, later parsed to `u32`). -/
structure ParsedPath where
  controller : Option String
  id : Option String
deriving DecidableEq, Repr

/-- Embeds `Action::from_auth_z` (authz.rs lines 31-43): match on
`(path.id.clone(), method)` in source order. -/
def Action.from_auth_z (path : ParsedPath) (method : String) : Action :=
  match path.id, method with
  | some _, "GET" => .View
  | none, "POST" => .Create
  | some _, "POST" => .Edit
  | some _, "DELETE" => .Delete
  | none, _ => .View
  | some _, _ => .View

/-- Embeds `impl From<Action> for &str` (authz.rs lines 45-54). -/
def Action.toStr : Action → String
  | .Create => "create"
  | .Edit => "edit"
  | .Delete => "delete"
  | .View => "view"

/-- The predefined `RouterError` codes the authz module mentions
(`RouterError::from_predefined` arguments in authz.rs). -/
inductive RouterErrorCode
  | AUTHZ_PERMISSION_DENIED
  | AUTHZ_CONDITION_VALUE_NOT_DEFINED
  | MODEL_ATTRIBUTE_NOT_DEFINED
deriving DecidableEq, Repr

/-- Embeds `ConditionValueType` (authz.rs lines 221-224). -/
inductive ConditionValueType
  | Boolean
deriving DecidableEq, Repr

/-- Embeds `impl TryFrom<&str> for ConditionValueType` (authz.rs lines 226-238). -/
def ConditionValueType.tryFrom : String → Except RouterErrorCode ConditionValueType
  | "true" | "false" => .ok .Boolean
  | _ => .error .AUTHZ_CONDITION_VALUE_NOT_DEFINED

/-- Embeds `ModelAttrib` (authz.rs lines 335-339). -/
inductive ModelAttrib
  | Owner
  | Login
deriving DecidableEq, Repr

/-- Embeds `impl TryFrom<&str> for ModelAttrib` (authz.rs lines 353-365). -/
def ModelAttrib.tryFrom : String → Except RouterErrorCode ModelAttrib
  | "isOwner" => .ok .Owner
  | "isLoggedIn" => .ok .Login
  | _ => .error .MODEL_ATTRIBUTE_NOT_DEFINED

/-- Embeds `Owner::validate` (authz.rs lines 262-279).  `attr.unwrap().to_string()`
is `toString a` on the matched payload; the Rust `&&` / `||` short-circuits
are rendered as the corresponding nested matches. -/
def Owner.validate (attr : Option Int) (subject : Option String)
    (condition_value : String) : Bool :=
  match subject with
  | none => false
  | some subject =>
    if condition_value = "true" then
      -- attr.is_some() && subject == attr.unwrap().to_string()
      match attr with
      | some a => subject == toString a
      | none => false
    else if condition_value = "false" then
      -- attr.is_none() || subject != attr.unwrap().to_string()
      match attr with
      | some a => subject != toString a
      | none => true
    else
      true

/-- Embeds `Login::validate` (authz.rs lines 291-298). -/
def Login.validate (_attr : Option Int) (subject : Option String)
    (_condition_value : String) : Bool :=
  subject.isSome

/-- Embeds `ModelAttribResult` (authz.rs lines 305-312); the wrapped `Owner` and
`Login` are unit structs, so the constructors carry no payload. -/
inductive ModelAttribResult
  | Owner
  | Login
deriving DecidableEq, Repr

/-- Embeds `impl From<ModelAttrib> for ModelAttribResult` (authz.rs lines 341-350). -/
def ModelAttribResult.fromAttrib : ModelAttrib → ModelAttribResult
  | .Owner => .Owner
  | .Login => .Login

/-- Embeds `impl Condition for ModelAttribResult`, `validate` (authz.rs 314-325). -/
def ModelAttribResult.validate (r : ModelAttribResult) (attrib : Option Int)
    (subject : Option String) (condition_value : String) : Bool :=
  match r with
  | .Owner => Owner.validate attrib subject condition_value
  | .Login => Login.validate attrib subject condition_value

/-- The two resource models registered with the engine, reduced to the data
their `ModelPermission::get_attr` impls read: `User.account_id` and
`Organization.owner_account_id` (both `i32`). -/
inductive ResourceModel
  | user (account_id : Int)
  | organization (owner_account_id : Int)
deriving DecidableEq, Repr

/-- Embeds `ModelPermission::get_attr` for `User` (authz.rs 367-375) and for
`Organization` (authz.rs 377-385). -/
def ResourceModel.get_attr : ResourceModel → ModelAttrib → Option Int
  | .user account_id, .Owner => some account_id
  | .user _, .Login => none
  | .organization owner_account_id, .Owner => some owner_account_id
  | .organization _, .Login => none

/-- The Rust cast `u32 as i32`: values below `2^31` unchanged, the rest
wrap to negative. -/
def u32_as_i32 (n : Nat) : Int :=
  if n < 2 ^ 31 then (n : Int) else (n : Int) - 2 ^ 32

/-- Database environment for one `check` call.
`find_grants a obj act` models the two diesel queries of authz.rs lines
113-128 (both use the same `permissions_filter`, so one lookup returns the
grant-id list together with the joined `(name, value)` condition rows):
`none` is a diesel read error (the `Err` arm at authz.rs line 133).
`user_account_id` / `org_owner_account_id` model what `User::from_id` /
`Organization::from_id` load for a given resource id. -/
structure Db where
  find_grants : Int → String → String → Option (List Int × List (String × String))
  user_account_id : Int → Int
  org_owner_account_id : Int → Int

/-- Result of `get_model`: a model, or a Rust panic (the `todo!()` arm). -/
inductive GetModelResult
  | ok (model : ResourceModel)
  | crash
deriving DecidableEq, Repr

/-- Embeds `AuthZController::get_model` (authz.rs lines 196-219): dispatch on the
resource-name string; `resource_id as i32` is the u32→i32 cast; the
wildcard arm is `todo!()`, i.e. a panic. -/
def get_model (db : Db) (resource_name : String) (resource_id : Nat) :
    GetModelResult :=
  let resource_id : Int := u32_as_i32 resource_id
  match resource_name with
  | "user" => .ok (.user (db.user_account_id resource_id))
  | "organization" => .ok (.organization (db.org_owner_account_id resource_id))
  | _ => .crash

/-- Digit-accumulation loop of `u32::from_str`: consume decimal digits,
fail on any non-digit. -/
def parse_u32_go : List Char → Nat → Option Nat
  | [], acc => some acc
  | c :: rest, acc =>
    if c.isDigit then parse_u32_go rest (acc * 10 + (c.toNat - 48))
    else none

/-- Rust `str::parse::<u32>()`: an optional leading `+`, then one or more
decimal digits, value within `u32` range; anything else is `Err`. -/
def parse_u32 (s : String) : Option Nat :=
  let digits :=
    match s.data with
    | '+' :: rest => rest
    | l => l
  if digits.isEmpty then none
  else
    match parse_u32_go digits 0 with
    | some n => if n < 2 ^ 32 then some n else none
    | none => none

/-- Embeds `RouterErrorDetail` as built in authz.rs lines 87-98: request URL,
parsed path, remote address, optional `User-agent` header. -/
structure RouterErrorDetail where
  request_url : String
  request_url_parsed : String
  req_address : String
  user_agent : Option String
deriving DecidableEq, Repr

/-- One attempted `log_to_db` call: which `RouterError` was logged,
with which request detail. -/
structure AuditRecord where
  code : RouterErrorCode
  detail : RouterErrorDetail
deriving DecidableEq, Repr

/-- Outcome of `check`: `Ok(())`, `Err(RouterError)` with its predefined
code, or a Rust panic (an `unwrap()` that fails, or `todo!()` reached
through `get_model`). -/
inductive CheckOutcome
  | allow
  | deny (code : RouterErrorCode)
  | crash
deriving DecidableEq, Repr

/-- The condition loop of `check` (authz.rs lines 160-192) plus the final
deny at lines 191-192.  For each `(cond_name, cond_value)` row: parse the
name into a `ModelAttrib`; on failure log the parse error and then the
permission-denied error and return `Err` (two `log_to_db` calls, lines 165
and 172); on success fetch the attribute from the model, validate, and
return `Ok(())` on the first success.  Falling off the list logs once and
returns `Err(AUTHZ_PERMISSION_DENIED)`. -/
def checkConditions (model : ResourceModel) (inner_subject : Option String)
    (error_detail : RouterErrorDetail) :
    List (String × String) → CheckOutcome × List AuditRecord
  | [] =>
    (.deny .AUTHZ_PERMISSION_DENIED,
      [⟨.AUTHZ_PERMISSION_DENIED, error_detail⟩])
  | (cond_name, cond_value) :: rest =>
    match ModelAttrib.tryFrom cond_name with
    | .error err =>
      (.deny .AUTHZ_PERMISSION_DENIED,
        [⟨err, error_detail⟩, ⟨.AUTHZ_PERMISSION_DENIED, error_detail⟩])
    | .ok model_attr =>
      let attr := model.get_attr model_attr
      if (ModelAttribResult.fromAttrib model_attr).validate attr inner_subject
          cond_value then
        (.allow, [])
      else
        checkConditions model inner_subject error_detail rest

/-- Embeds `AuthZController::check` (authz.rs lines 70-193).  Connection-pool
acquisition (`self.db_pool.get().unwrap()`, line 106) is modelled as
succeeding; a failure there would be a panic before any decision logic
runs.  The closure's `account_id.unwrap()` (line 114) and
`path_copy.controller.unwrap()` (line 115), evaluated in that order while
building the filter, panic when the option is `none`; the panic surfaces
through `web::block(..).await.unwrap()` (line 131), so both are `crash`.
`path.id.unwrap().clone().parse().unwrap()` (line 155) is `crash` when the
id is absent, non-numeric, or out of `u32` range.  `inner_subject` is
`account_id.map(|id| id.to_string())` (line 178), which here — with
`account_id` already matched as `some aid` — is `some (toString aid)`. -/
def check (db : Db) (req_addr : String) (user_agent : Option String)
    (uri_string : String) (uri_path : String)
    (account_id : Option Nat) (path : ParsedPath) (method : String) :
    CheckOutcome × List AuditRecord :=
  let error_detail : RouterErrorDetail :=
    { request_url := uri_string
      request_url_parsed := uri_path
      req_address := req_addr
      user_agent := user_agent }
  match account_id with
  | none => (.crash, [])
  | some aid =>
    match path.controller with
    | none => (.crash, [])
    | some controller =>
      let calculated_action := Action.from_auth_z path method
      match db.find_grants (u32_as_i32 aid) controller calculated_action.toStr with
      | none =>
        -- the Err arm of select_result (authz.rs lines 133-136)
        (.deny .AUTHZ_PERMISSION_DENIED,
          [⟨.AUTHZ_PERMISSION_DENIED, error_detail⟩])
      | some select_result =>
        if select_result.1.isEmpty then
          -- authz.rs lines 138-141
          (.deny .AUTHZ_PERMISSION_DENIED,
            [⟨.AUTHZ_PERMISSION_DENIED, error_detail⟩])
        else if select_result.2.isEmpty then
          -- authz.rs lines 145-147
          (.allow, [])
        else
          match path.id with
          | none => (.crash, [])
          | some id_str =>
            match parse_u32 id_str with
            | none => (.crash, [])
            | some rid =>
              match get_model db controller rid with
              | .crash => (.crash, [])
              | .ok model =>
                checkConditions model (some (toString aid)) error_detail
                  select_result.2

/-- Whether one `(name, value)` condition row validates against a model and
subject: the name parses and the dispatched validator returns true.
Composition of `ModelAttrib.tryFrom`, `ResourceModel.get_attr` and
`ModelAttribResult.validate` exactly as the loop body uses them. -/
def condValid (model : ResourceModel) (subject : Option String) :
    String × String → Bool
  | (cond_name, cond_value) =>
    match ModelAttrib.tryFrom cond_name with
    | .ok a =>
      (ModelAttribResult.fromAttrib a).validate (model.get_attr a) subject cond_value
    | .error _ => false

/-- Concrete repository environments for counterexamples and witnesses. -/
def dbNoGrants : Db := ⟨fun _ _ _ => some ([], []), fun _ => 0, fun _ => 0⟩

def dbReadError : Db := ⟨fun _ _ _ => none, fun _ => 0, fun _ => 0⟩

def dbShortCircuit : Db :=
  ⟨fun _ _ _ => some ([1], [("bogus", "true"), ("isLoggedIn", "")]),
   fun _ => 7, fun _ => 7⟩

def dbBadCondition : Db :=
  ⟨fun _ _ _ => some ([1], [("bogus", "true")]), fun _ => 0, fun _ => 0⟩

def dbGrantNoConds : Db := ⟨fun _ _ _ => some ([1], []), fun _ => 0, fun _ => 0⟩

def db9a : Db :=
  ⟨fun _ _ _ => some ([1], [("isLoggedIn", ""), ("isOwner", "true")]),
   fun _ => 9, fun _ => 9⟩

def db9b : Db :=
  ⟨fun _ _ _ => some ([1], [("isOwner", "true"), ("isLoggedIn", "")]),
   fun _ => 9, fun _ => 9⟩

lemma tryFrom_error_eq {s : String} {e : RouterErrorCode}
    (h : ModelAttrib.tryFrom s = .error e) : e = .MODEL_ATTRIBUTE_NOT_DEFINED := by
  unfold ModelAttrib.tryFrom at h
  split at h <;> simp_all

lemma condValid_ok {model : ResourceModel} {subj : Option String}
    {n v : String} {a : ModelAttrib} (ha : ModelAttrib.tryFrom n = .ok a) :
    condValid model subj (n, v)
      = (ModelAttribResult.fromAttrib a).validate (model.get_attr a) subj v := by
  show (match ModelAttrib.tryFrom n with
    | Except.ok a =>
      (ModelAttribResult.fromAttrib a).validate (model.get_attr a) subj v
    | Except.error _ => false) = _
  rw [ha]

lemma checkConditions_cons_ok {model : ResourceModel} {subj : Option String}
    {d : RouterErrorDetail} {n v : String} {rest : List (String × String)}
    {a : ModelAttrib} (ha : ModelAttrib.tryFrom n = .ok a) :
    checkConditions model subj d ((n, v) :: rest)
      = if (ModelAttribResult.fromAttrib a).validate (model.get_attr a) subj v
        then (.allow, [])
        else checkConditions model subj d rest := by
  show (match ModelAttrib.tryFrom n with
    | Except.error err =>
      ((.deny .AUTHZ_PERMISSION_DENIED : CheckOutcome),
        [(⟨err, d⟩ : AuditRecord), ⟨.AUTHZ_PERMISSION_DENIED, d⟩])
    | Except.ok model_attr =>
      if (ModelAttribResult.fromAttrib model_attr).validate
          (model.get_attr model_attr) subj v then (.allow, [])
      else checkConditions model subj d rest) = _
  rw [ha]

lemma checkConditions_cons_error {model : ResourceModel} {subj : Option String}
    {d : RouterErrorDetail} {n v : String} {rest : List (String × String)}
    {e : RouterErrorCode} (he : ModelAttrib.tryFrom n = .error e) :
    checkConditions model subj d ((n, v) :: rest)
      = (.deny .AUTHZ_PERMISSION_DENIED, [⟨e, d⟩, ⟨.AUTHZ_PERMISSION_DENIED, d⟩]) := by
  show (match ModelAttrib.tryFrom n with
    | Except.error err =>
      ((.deny .AUTHZ_PERMISSION_DENIED : CheckOutcome),
        [(⟨err, d⟩ : AuditRecord), ⟨.AUTHZ_PERMISSION_DENIED, d⟩])
    | Except.ok model_attr =>
      if (ModelAttribResult.fromAttrib model_attr).validate
          (model.get_attr model_attr) subj v then (.allow, [])
      else checkConditions model subj d rest) = _
  rw [he]

lemma checkConditions_shape (model : ResourceModel) (subj : Option String)
    (d : RouterErrorDetail) (l : List (String × String)) :
    checkConditions model subj d l = (.allow, [])
    ∨ checkConditions model subj d l
        = (.deny .AUTHZ_PERMISSION_DENIED, [⟨.AUTHZ_PERMISSION_DENIED, d⟩])
    ∨ checkConditions model subj d l
        = (.deny .AUTHZ_PERMISSION_DENIED,
            [⟨.MODEL_ATTRIBUTE_NOT_DEFINED, d⟩, ⟨.AUTHZ_PERMISSION_DENIED, d⟩]) := by
  induction l with
  | nil => right; left; rfl
  | cons c rest ih =>
    obtain ⟨n, v⟩ := c
    cases htf : ModelAttrib.tryFrom n with
    | error e =>
      have he := tryFrom_error_eq htf
      subst he
      right; right
      rw [checkConditions_cons_error htf]
    | ok a =>
      rw [checkConditions_cons_ok htf]
      by_cases hv : (ModelAttribResult.fromAttrib a).validate (model.get_attr a) subj v = true
      · left; simp [hv]
      · simpa [hv] using ih

lemma checkConditions_fst_all_parse (model : ResourceModel) (subj : Option String)
    (d : RouterErrorDetail) (l : List (String × String))
    (h : ∀ c ∈ l, ∃ a, ModelAttrib.tryFrom c.1 = .ok a) :
    (checkConditions model subj d l).1
      = if l.any (condValid model subj) then .allow
        else .deny .AUTHZ_PERMISSION_DENIED := by
  induction l with
  | nil => simp [checkConditions]
  | cons c rest ih =>
    obtain ⟨n, v⟩ := c
    obtain ⟨a, ha⟩ := h (n, v) (List.mem_cons_self _ _)
    have ha : ModelAttrib.tryFrom n = Except.ok a := ha
    have ih' := ih (fun c hc => h c (List.mem_cons_of_mem _ hc))
    rw [checkConditions_cons_ok ha, List.any_cons, condValid_ok ha]
    rcases Bool.eq_false_or_eq_true
        ((ModelAttribResult.fromAttrib a).validate (model.get_attr a) subj v) with hv | hv
    · rw [hv, Bool.true_or]
      simp
    · rw [hv, Bool.false_or]
      simp [ih']

lemma checkConditions_short_circuit (model : ResourceModel) (subj : Option String)
    (d : RouterErrorDetail) (pre post : List (String × String))
    (bad : String × String)
    (hpre : ∀ c ∈ pre, condValid model subj c = false ∧ ∃ a, ModelAttrib.tryFrom c.1 = .ok a)
    (hbad : ModelAttrib.tryFrom bad.1 = .error .MODEL_ATTRIBUTE_NOT_DEFINED) :
    checkConditions model subj d (pre ++ bad :: post)
      = (.deny .AUTHZ_PERMISSION_DENIED,
          [⟨.MODEL_ATTRIBUTE_NOT_DEFINED, d⟩, ⟨.AUTHZ_PERMISSION_DENIED, d⟩]) := by
  induction pre with
  | nil =>
    obtain ⟨n, v⟩ := bad
    rw [List.nil_append, checkConditions_cons_error hbad]
  | cons c rest ih =>
    obtain ⟨hval, a, ha⟩ := hpre c (List.mem_cons_self _ _)
    obtain ⟨n, v⟩ := c
    have ha : ModelAttrib.tryFrom n = Except.ok a := ha
    have hv : (ModelAttribResult.fromAttrib a).validate (model.get_attr a) subj v = false := by
      rw [← condValid_ok ha]; exact hval
    have ih' := ih (fun c hc => hpre c (List.mem_cons_of_mem _ hc))
    rw [List.cons_append, checkConditions_cons_ok ha, hv]
    simpa using ih'
lemma check_shape (db : Db) (req_addr : String) (ua : Option String)
    (uri_s uri_p : String) (acc : Option Nat) (path : ParsedPath) (method : String) :
    check db req_addr ua uri_s uri_p acc path method = (.crash, [])
    ∨ check db req_addr ua uri_s uri_p acc path method = (.allow, [])
    ∨ check db req_addr ua uri_s uri_p acc path method
        = (.deny .AUTHZ_PERMISSION_DENIED,
            [⟨.AUTHZ_PERMISSION_DENIED, ⟨uri_s, uri_p, req_addr, ua⟩⟩])
    ∨ check db req_addr ua uri_s uri_p acc path method
        = (.deny .AUTHZ_PERMISSION_DENIED,
            [⟨.MODEL_ATTRIBUTE_NOT_DEFINED, ⟨uri_s, uri_p, req_addr, ua⟩⟩,
             ⟨.AUTHZ_PERMISSION_DENIED, ⟨uri_s, uri_p, req_addr, ua⟩⟩]) := by
  obtain ⟨ctrlOpt, idOpt⟩ := path
  cases acc with
  | none => exact Or.inl rfl
  | some aid =>
    cases ctrlOpt with
    | none => exact Or.inl rfl
    | some ctrl =>
      cases hg : db.find_grants (u32_as_i32 aid) ctrl
          (Action.from_auth_z ⟨some ctrl, idOpt⟩ method).toStr with
      | none =>
        right; right; left
        simp [check, hg]
      | some sr =>
        obtain ⟨grants, conds⟩ := sr
        cases grants with
        | nil => right; right; left; simp [check, hg]
        | cons g gs =>
          cases conds with
          | nil => right; left; simp [check, hg]
          | cons c cs =>
            cases idOpt with
            | none => left; simp [check, hg]
            | some id_str =>
              cases hp : parse_u32 id_str with
              | none => left; simp [check, hg, hp]
              | some rid =>
                cases hm : get_model db ctrl rid with
                | crash => left; simp [check, hg, hp, hm]
                | ok model =>
                  have hcc := checkConditions_shape model (some (toString aid))
                      ⟨uri_s, uri_p, req_addr, ua⟩ (c :: cs)
                  have hc : check db req_addr ua uri_s uri_p (some aid)
                        ⟨some ctrl, some id_str⟩ method
                      = checkConditions model (some (toString aid))
                          ⟨uri_s, uri_p, req_addr, ua⟩ (c :: cs) := by
                    simp [check, hg, hp, hm]
                  rw [hc]
                  rcases hcc with h | h | h
                  · right; left; exact h
                  · right; right; left; exact h
                  · right; right; right; exact h

/-- Claim C1 (confirmed): when the permission repository query succeeds and
returns an empty grant-id list for (subject, resource_type, action), `check`
returns the `AUTHZ_PERMISSION_DENIED` fault (with one audit write) and in
particular never Allow. -/
theorem check_no_grants_denied
    (db : Db) (req_addr : String) (ua : Option String) (uri_s uri_p : String)
    (aid : Nat) (ctrl : String) (idOpt : Option String) (method : String)
    (conds : List (String × String))
    (hdb : db.find_grants (u32_as_i32 aid) ctrl
        (Action.from_auth_z ⟨some ctrl, idOpt⟩ method).toStr = some ([], conds)) :
    check db req_addr ua uri_s uri_p (some aid) ⟨some ctrl, idOpt⟩ method
      = (.deny .AUTHZ_PERMISSION_DENIED,
          [⟨.AUTHZ_PERMISSION_DENIED, ⟨uri_s, uri_p, req_addr, ua⟩⟩]) := by
  simp [check, hdb]

/-- Witness for C1 at a concrete empty-grant repository. -/
theorem check_no_grants_denied_witness :
    check dbNoGrants "127.0.0.1:80" none "/user/1" "/user/1" (some 1)
        ⟨some "user", some "1"⟩ "GET"
      = (.deny .AUTHZ_PERMISSION_DENIED,
          [⟨.AUTHZ_PERMISSION_DENIED, ⟨"/user/1", "/user/1", "127.0.0.1:80", none⟩⟩]) :=
  check_no_grants_denied dbNoGrants "127.0.0.1:80" none "/user/1" "/user/1"
    1 "user" (some "1") "GET" [] rfl

/-- Counterexample to C2: at a concrete request whose grant/condition read
fails (`find_grants = none`, the `Err` arm of `select_result`), `check`
returns the very `AUTHZ_PERMISSION_DENIED` outcome the claim says a storage
error must never be coerced into; no distinguishable storage fault exists
in the code. -/
theorem check_storage_error_coerced_cex :
    dbReadError.find_grants (u32_as_i32 1) "user" "view" = none
    ∧ check dbReadError "127.0.0.1:80" none "/user/1" "/user/1" (some 1)
        ⟨some "user", some "1"⟩ "GET"
      = (.deny .AUTHZ_PERMISSION_DENIED,
          [⟨.AUTHZ_PERMISSION_DENIED, ⟨"/user/1", "/user/1", "127.0.0.1:80", none⟩⟩]) :=
  ⟨rfl, rfl⟩

/-- Claim C2 as amended: a failed storage read of grants/conditions is
coerced into the `AUTHZ_PERMISSION_DENIED` fault (with one audit write) —
the same outcome as "no grants", not a distinguishable storage fault. -/
theorem check_storage_error_denied
    (db : Db) (req_addr : String) (ua : Option String) (uri_s uri_p : String)
    (aid : Nat) (ctrl : String) (idOpt : Option String) (method : String)
    (hdb : db.find_grants (u32_as_i32 aid) ctrl
        (Action.from_auth_z ⟨some ctrl, idOpt⟩ method).toStr = none) :
    check db req_addr ua uri_s uri_p (some aid) ⟨some ctrl, idOpt⟩ method
      = (.deny .AUTHZ_PERMISSION_DENIED,
          [⟨.AUTHZ_PERMISSION_DENIED, ⟨uri_s, uri_p, req_addr, ua⟩⟩]) := by
  simp [check, hdb]

/-- Witness for the amended C2 at a concrete always-failing repository. -/
theorem check_storage_error_denied_witness :
    check dbReadError "10.0.0.1:443" (some "curl") "/organization/4"
        "/organization/4" (some 2) ⟨some "organization", some "4"⟩ "DELETE"
      = (.deny .AUTHZ_PERMISSION_DENIED,
          [⟨.AUTHZ_PERMISSION_DENIED,
            ⟨"/organization/4", "/organization/4", "10.0.0.1:443", some "curl"⟩⟩]) :=
  check_storage_error_denied dbReadError "10.0.0.1:443" (some "curl")
    "/organization/4" "/organization/4" 2 "organization" (some "4") "DELETE" rfl

/-- Claim C3 (code bug): for an anonymous request (`account_id = None`)
`check` does not reach a decision at all — it panics at
`account_id.unwrap()` inside the query closure (authz.rs line 114), for
every database, path and method.  The claim (and the later
`account_id.map` at line 178, which correctly handles `None`) says
anonymous requests are handled and answered with a decision. -/
theorem check_anonymous_crashes
    (db : Db) (req_addr : String) (ua : Option String) (uri_s uri_p : String)
    (path : ParsedPath) (method : String) :
    check db req_addr ua uri_s uri_p none path method = (.crash, []) := rfl

/-- Claim C4 (confirmed): full input/output behaviour of `Owner::validate`
— absent subject is always false; literal "true" requires the attribute to
be present with decimal string form equal to the subject; literal "false"
requires the attribute absent or different from the subject; any other
literal passes permissively; including the four concrete examples from the
spec. -/
theorem owner_validate_spec :
    (∀ attr lit, Owner.validate attr none lit = false)
    ∧ (∀ attr s, (Owner.validate attr (some s) "true" = true
        ↔ ∃ n, attr = some n ∧ s = toString n))
    ∧ (∀ attr s, (Owner.validate attr (some s) "false" = true
        ↔ attr = none ∨ ∃ n, attr = some n ∧ s ≠ toString n))
    ∧ (∀ attr s lit, lit ≠ "true" → lit ≠ "false" →
        Owner.validate attr (some s) lit = true)
    ∧ Owner.validate (some 7) (some "7") "true" = true
    ∧ Owner.validate (some 7) (some "9") "true" = false
    ∧ Owner.validate none (some "x") "false" = true
    ∧ Owner.validate (some 7) (some "7") "false" = false := by
  refine ⟨fun attr lit => rfl, fun attr s => ?_, fun attr s => ?_,
    fun attr s lit h1 h2 => ?_, by decide, by decide, by decide, by decide⟩
  · cases attr <;> simp [Owner.validate]
  · cases attr <;> simp [Owner.validate]
  · show (if lit = "true" then
        (match attr with
          | some a => s == toString a
          | none => false)
      else if lit = "false" then
        (match attr with
          | some a => s != toString a
          | none => true)
      else true) = true
    rw [if_neg h1, if_neg h2]

/-- Witness for C4: the permissive pass-through clause at a concrete
unrecognized literal. -/
theorem owner_validate_spec_witness :
    Owner.validate (some 5) (some "5") "banana" = true :=
  owner_validate_spec.2.2.2.1 (some 5) "5" "banana" (by decide) (by decide)

/-- Claim C7 (confirmed): the action resolver is a total pure function of
(resource-id presence, method): id present + GET ↦ View, id absent + POST
↦ Create, id present + POST ↦ Edit, id present + DELETE ↦ Delete, and all
remaining combinations (id absent with any non-POST method, id present
with any method other than GET/POST/DELETE) ↦ View. -/
theorem action_resolver_spec :
    (∀ ctrl idv, Action.from_auth_z ⟨ctrl, some idv⟩ "GET" = .View)
    ∧ (∀ ctrl, Action.from_auth_z ⟨ctrl, none⟩ "POST" = .Create)
    ∧ (∀ ctrl idv, Action.from_auth_z ⟨ctrl, some idv⟩ "POST" = .Edit)
    ∧ (∀ ctrl idv, Action.from_auth_z ⟨ctrl, some idv⟩ "DELETE" = .Delete)
    ∧ (∀ ctrl m, m ≠ "POST" → Action.from_auth_z ⟨ctrl, none⟩ m = .View)
    ∧ (∀ ctrl idv m, m ≠ "GET" → m ≠ "POST" → m ≠ "DELETE" →
        Action.from_auth_z ⟨ctrl, some idv⟩ m = .View) := by
  refine ⟨fun ctrl idv => rfl, fun ctrl => rfl, fun ctrl idv => rfl,
    fun ctrl idv => rfl, fun ctrl m h => ?_, fun ctrl idv m h1 h2 h3 => ?_⟩
  · unfold Action.from_auth_z
    split <;> simp_all
  · unfold Action.from_auth_z
    split <;> simp_all

/-- Witness for C7: the two default rows at concrete unmapped methods. -/
theorem action_resolver_spec_witness :
    Action.from_auth_z ⟨some "user", none⟩ "DELETE" = .View
    ∧ Action.from_auth_z ⟨some "user", some "1"⟩ "PATCH" = .View :=
  ⟨action_resolver_spec.2.2.2.2.1 (some "user") "DELETE" (by decide),
   action_resolver_spec.2.2.2.2.2 (some "user") "1" "PATCH"
     (by decide) (by decide) (by decide)⟩

/-- Claim C8 (code bug): `get_model` on any resource-type tag outside the
registered "user"/"organization" registry hits the `todo!()` wildcard arm
(authz.rs line 214) and panics; there is no `UnsupportedResourceType`
fault and no per-request Deny.  Evaluated here at the repository's own
other controllers ("quran", "mushaf", "translation"); the registered tags
load their models normally. -/
theorem get_model_unknown_tag_crashes :
    get_model dbNoGrants "quran" 17 = .crash
    ∧ get_model dbNoGrants "mushaf" 1 = .crash
    ∧ get_model dbNoGrants "translation" 3 = .crash
    ∧ get_model dbNoGrants "user" 17 = .ok (.user 0)
    ∧ get_model dbNoGrants "organization" 17 = .ok (.organization 0) :=
  ⟨rfl, rfl, rfl, rfl, rfl⟩
/-- Claim C5 (confirmed): once the condition loop reaches an entry whose
name does not parse into a `ModelAttrib` (every earlier entry parsed but
validated false), `check` denies with `AUTHZ_PERMISSION_DENIED` no matter
what conditions follow — the tail `post` is universally quantified, so a
later condition that would have validated true is never evaluated.  (The
parse error and the denial are both logged, see C6.) -/
theorem check_unparseable_condition_short_circuit
    (db : Db) (req_addr : String) (ua : Option String) (uri_s uri_p : String)
    (aid rid : Nat) (ctrl id_str method bad_name bad_value : String)
    (gids : List Int) (pre post : List (String × String))
    (model : ResourceModel)
    (hdb : db.find_grants (u32_as_i32 aid) ctrl
        (Action.from_auth_z ⟨some ctrl, some id_str⟩ method).toStr
      = some (gids, pre ++ (bad_name, bad_value) :: post))
    (hg : gids ≠ [])
    (hp : parse_u32 id_str = some rid)
    (hm : get_model db ctrl rid = .ok model)
    (hpre : ∀ c ∈ pre, condValid model (some (toString aid)) c = false
        ∧ ∃ a, ModelAttrib.tryFrom c.1 = .ok a)
    (hbad : ModelAttrib.tryFrom bad_name = .error .MODEL_ATTRIBUTE_NOT_DEFINED) :
    check db req_addr ua uri_s uri_p (some aid) ⟨some ctrl, some id_str⟩ method
      = (.deny .AUTHZ_PERMISSION_DENIED,
          [⟨.MODEL_ATTRIBUTE_NOT_DEFINED, ⟨uri_s, uri_p, req_addr, ua⟩⟩,
           ⟨.AUTHZ_PERMISSION_DENIED, ⟨uri_s, uri_p, req_addr, ua⟩⟩]) := by
  have h1 : gids.isEmpty = false := by
    cases gids <;> simp_all
  have h2 : (pre ++ (bad_name, bad_value) :: post).isEmpty = false := by
    cases pre <;> simp
  have hc : check db req_addr ua uri_s uri_p (some aid)
        ⟨some ctrl, some id_str⟩ method
      = checkConditions model (some (toString aid)) ⟨uri_s, uri_p, req_addr, ua⟩
          (pre ++ (bad_name, bad_value) :: post) := by
    simp [check, hdb, h1, h2, hp, hm]
  rw [hc]
  exact checkConditions_short_circuit model (some (toString aid))
    ⟨uri_s, uri_p, req_addr, ua⟩ pre post (bad_name, bad_value) hpre hbad

/-- Witness for C5 at a concrete repository whose condition list has an
unparseable name first and a condition that would validate true
("isLoggedIn" with a present subject) after it. -/
theorem check_unparseable_condition_short_circuit_witness :
    check dbShortCircuit "127.0.0.1:80" none "/user/1" "/user/1" (some 1)
        ⟨some "user", some "1"⟩ "GET"
      = (.deny .AUTHZ_PERMISSION_DENIED,
          [⟨.MODEL_ATTRIBUTE_NOT_DEFINED, ⟨"/user/1", "/user/1", "127.0.0.1:80", none⟩⟩,
           ⟨.AUTHZ_PERMISSION_DENIED, ⟨"/user/1", "/user/1", "127.0.0.1:80", none⟩⟩]) :=
  check_unparseable_condition_short_circuit dbShortCircuit "127.0.0.1:80" none
    "/user/1" "/user/1" 1 1 "user" "1" "GET" "bogus" "true" [1] []
    [("isLoggedIn", "")] (.user 7) rfl (by decide) rfl rfl
    (by intro c hc; cases hc) rfl

/-- Counterexample to C6: a concrete Deny caused by an unparseable
condition name attempts two `log_to_db` writes (the parse error at
authz.rs line 165, then the permission-denied error at line 172), not
exactly one as the claim states. -/
theorem check_double_audit_write_cex :
    (check dbBadCondition "127.0.0.1:80" none "/user/1" "/user/1" (some 1)
        ⟨some "user", some "1"⟩ "GET").1 = .deny .AUTHZ_PERMISSION_DENIED
    ∧ (check dbBadCondition "127.0.0.1:80" none "/user/1" "/user/1" (some 1)
        ⟨some "user", some "1"⟩ "GET").2.length = 2 :=
  ⟨rfl, rfl⟩

/-- Claim C6 as amended: an Allow (and likewise a panic) attempts zero
audit writes; a Deny attempts exactly one write — the permission-denied
record carrying the request's URL, parsed path, remote address and
optional user agent — except when the Deny is triggered by an unparseable
condition name, in which case that record is preceded by the
attribute-parse-error record (two writes). -/
theorem check_audit_write_discipline
    (db : Db) (req_addr : String) (ua : Option String) (uri_s uri_p : String)
    (acc : Option Nat) (path : ParsedPath) (method : String) :
    ((check db req_addr ua uri_s uri_p acc path method).1 = .allow
      → (check db req_addr ua uri_s uri_p acc path method).2 = [])
    ∧ ((check db req_addr ua uri_s uri_p acc path method).1 = .crash
      → (check db req_addr ua uri_s uri_p acc path method).2 = [])
    ∧ (∀ c, (check db req_addr ua uri_s uri_p acc path method).1 = .deny c
      → (check db req_addr ua uri_s uri_p acc path method).2
          = [⟨.AUTHZ_PERMISSION_DENIED, ⟨uri_s, uri_p, req_addr, ua⟩⟩]
        ∨ (check db req_addr ua uri_s uri_p acc path method).2
          = [⟨.MODEL_ATTRIBUTE_NOT_DEFINED, ⟨uri_s, uri_p, req_addr, ua⟩⟩,
             ⟨.AUTHZ_PERMISSION_DENIED, ⟨uri_s, uri_p, req_addr, ua⟩⟩]) := by
  rcases check_shape db req_addr ua uri_s uri_p acc path method with h | h | h | h <;>
    rw [h] <;> simp

/-- Witness for the amended C6: a concrete Allow (grant with no
conditions) attempts zero audit writes. -/
theorem check_audit_write_discipline_witness :
    (check dbGrantNoConds "127.0.0.1:80" none "/user/1" "/user/1" (some 1)
        ⟨some "user", some "1"⟩ "GET").2 = [] :=
  (check_audit_write_discipline dbGrantNoConds "127.0.0.1:80" none "/user/1"
    "/user/1" (some 1) ⟨some "user", some "1"⟩ "GET").1 rfl

/-- Claim C10 (confirmed): `check` can only evaluate to Allow, to the
`AUTHZ_PERMISSION_DENIED` fault, or to a panic — in particular it never
returns the `AUTHZ_CONDITION_VALUE_NOT_DEFINED` fault: the Boolean
value-type guard (`ConditionValueType::try_from`, which is what would
produce that fault, as the first conjunct shows on an unrecognized
literal) is never invoked on the decision path, so a condition's literal
reaches the validators unvalidated. -/
theorem check_outcome_classification
    (db : Db) (req_addr : String) (ua : Option String) (uri_s uri_p : String)
    (acc : Option Nat) (path : ParsedPath) (method : String) :
    ConditionValueType.tryFrom "banana"
        = .error .AUTHZ_CONDITION_VALUE_NOT_DEFINED
    ∧ ((check db req_addr ua uri_s uri_p acc path method).1 = .allow
      ∨ (check db req_addr ua uri_s uri_p acc path method).1
          = .deny .AUTHZ_PERMISSION_DENIED
      ∨ (check db req_addr ua uri_s uri_p acc path method).1 = .crash) := by
  refine ⟨rfl, ?_⟩
  rcases check_shape db req_addr ua uri_s uri_p acc path method with h | h | h | h <;>
    rw [h] <;> simp
lemma perm_any_eq {α : Type} {l1 l2 : List α} (h : List.Perm l1 l2)
    (p : α → Bool) : l1.any p = l2.any p := by
  rcases Bool.eq_false_or_eq_true (l1.any p) with h1 | h1 <;>
    rcases Bool.eq_false_or_eq_true (l2.any p) with h2 | h2 <;>
    rw [h1, h2]
  · rw [List.any_eq_true] at h1
    rw [List.any_eq_false] at h2
    obtain ⟨x, hx, hpx⟩ := h1
    exact absurd hpx (by simpa using h2 x (h.mem_iff.mp hx))
  · rw [List.any_eq_true] at h2
    rw [List.any_eq_false] at h1
    obtain ⟨x, hx, hpx⟩ := h2
    exact absurd hpx (by simpa using h1 x (h.mem_iff.mpr hx))

lemma get_model_congr {db1 db2 : Db} {ctrl : String} {rid : Nat}
    {model : ResourceModel}
    (hu : db2.user_account_id = db1.user_account_id)
    (ho : db2.org_owner_account_id = db1.org_owner_account_id)
    (hm : get_model db1 ctrl rid = .ok model) :
    get_model db2 ctrl rid = .ok model := by
  unfold get_model at hm ⊢
  rw [hu, ho]
  exact hm

/-- Claim C9 (confirmed): with a nonempty grant and a nonempty condition
list all of whose names parse into `ModelAttrib`s, the Allow/Deny outcome
of `check` is invariant under permutation of the condition list (two
repositories returning the same conditions in different orders give the
same outcome), and the outcome is Allow exactly when at least one
condition validates true. -/
theorem check_condition_order_invariant
    (db1 db2 : Db) (req_addr : String) (ua : Option String) (uri_s uri_p : String)
    (aid rid : Nat) (ctrl id_str method : String)
    (g1 g2 : List Int) (l1 l2 : List (String × String)) (model : ResourceModel)
    (hu : db2.user_account_id = db1.user_account_id)
    (ho : db2.org_owner_account_id = db1.org_owner_account_id)
    (hdb1 : db1.find_grants (u32_as_i32 aid) ctrl
        (Action.from_auth_z ⟨some ctrl, some id_str⟩ method).toStr = some (g1, l1))
    (hdb2 : db2.find_grants (u32_as_i32 aid) ctrl
        (Action.from_auth_z ⟨some ctrl, some id_str⟩ method).toStr = some (g2, l2))
    (hg1 : g1 ≠ []) (hg2 : g2 ≠ []) (hl1 : l1 ≠ [])
    (hperm : List.Perm l1 l2)
    (hp : parse_u32 id_str = some rid)
    (hm : get_model db1 ctrl rid = .ok model)
    (hparse : ∀ c ∈ l1, ∃ a, ModelAttrib.tryFrom c.1 = .ok a) :
    (check db1 req_addr ua uri_s uri_p (some aid) ⟨some ctrl, some id_str⟩ method).1
      = (check db2 req_addr ua uri_s uri_p (some aid) ⟨some ctrl, some id_str⟩ method).1
    ∧ ((check db1 req_addr ua uri_s uri_p (some aid) ⟨some ctrl, some id_str⟩ method).1
        = .allow
      ↔ ∃ c ∈ l1, condValid model (some (toString aid)) c = true) := by
  have hm2 : get_model db2 ctrl rid = .ok model := get_model_congr hu ho hm
  have hl2 : l2 ≠ [] := by
    intro h
    subst h
    exact hl1 hperm.eq_nil
  have hparse2 : ∀ c ∈ l2, ∃ a, ModelAttrib.tryFrom c.1 = .ok a :=
    fun c hc => hparse c (hperm.mem_iff.mpr hc)
  have hge1 : g1.isEmpty = false := by cases g1 <;> simp_all
  have hge2 : g2.isEmpty = false := by cases g2 <;> simp_all
  have hle1 : l1.isEmpty = false := by cases l1 <;> simp_all
  have hle2 : l2.isEmpty = false := by cases l2 <;> simp_all
  have hc1 : check db1 req_addr ua uri_s uri_p (some aid)
        ⟨some ctrl, some id_str⟩ method
      = checkConditions model (some (toString aid))
          ⟨uri_s, uri_p, req_addr, ua⟩ l1 := by
    simp [check, hdb1, hge1, hle1, hp, hm]
  have hc2 : check db2 req_addr ua uri_s uri_p (some aid)
        ⟨some ctrl, some id_str⟩ method
      = checkConditions model (some (toString aid))
          ⟨uri_s, uri_p, req_addr, ua⟩ l2 := by
    simp [check, hdb2, hge2, hle2, hp, hm2]
  rw [hc1, hc2]
  rw [checkConditions_fst_all_parse model (some (toString aid))
      ⟨uri_s, uri_p, req_addr, ua⟩ l1 hparse,
    checkConditions_fst_all_parse model (some (toString aid))
      ⟨uri_s, uri_p, req_addr, ua⟩ l2 hparse2]
  have hany : l1.any (condValid model (some (toString aid)))
      = l2.any (condValid model (some (toString aid))) :=
    perm_any_eq hperm _
  constructor
  · rw [hany]
  · rcases Bool.eq_false_or_eq_true
        (l1.any (condValid model (some (toString aid)))) with ha | ha
    · rw [ha, if_pos rfl]
      rw [List.any_eq_true] at ha
      exact iff_of_true rfl ha
    · rw [ha, if_neg (by decide : ¬ (false = true))]
      rw [List.any_eq_false] at ha
      constructor
      · intro habs
        exact absurd habs (by decide)
      · rintro ⟨c, hc, hv⟩
        exact absurd hv (by simpa using ha c hc)

/-- Witness for C9: two concrete repositories returning the same two
parseable conditions in opposite orders give the same outcome, and that
outcome is Allow because one condition ("isLoggedIn") validates true. -/
theorem check_condition_order_invariant_witness :
    (check db9a "127.0.0.1:80" none "/user/1" "/user/1" (some 1)
        ⟨some "user", some "1"⟩ "GET").1
      = (check db9b "127.0.0.1:80" none "/user/1" "/user/1" (some 1)
          ⟨some "user", some "1"⟩ "GET").1
    ∧ ((check db9a "127.0.0.1:80" none "/user/1" "/user/1" (some 1)
          ⟨some "user", some "1"⟩ "GET").1 = .allow
      ↔ ∃ c ∈ ([("isLoggedIn", ""), ("isOwner", "true")] : List (String × String)),
          condValid (.user 9) (some (toString (1 : Nat))) c = true) :=
  check_condition_order_invariant db9a db9b "127.0.0.1:80" none "/user/1"
    "/user/1" 1 1 "user" "1" "GET" [1] [1]
    [("isLoggedIn", ""), ("isOwner", "true")]
    [("isOwner", "true"), ("isLoggedIn", "")] (.user 9)
    rfl rfl rfl rfl (by decide) (by decide) (by decide)
    (List.Perm.swap ("isOwner", "true") ("isLoggedIn", "") [])
    rfl rfl
    (by intro c hc
        cases hc with
        | head => exact ⟨.Login, rfl⟩
        | tail _ h2 =>
          cases h2 with
          | head => exact ⟨.Owner, rfl⟩
          | tail _ h3 => cases h3)

end NqApi
